import Mathlib

/-!
Shallow embedding of the stack virtual machine (栈机核心.py), its exception
machinery (异常处理.py) and the integrated debugger (集成调试器.py) of the
repository, together with theorems settling the frozen claims about them.

Conventions of the embedding:
* Python lists used as stacks (append/pop at the end) are modelled as Lean
  lists with the stack top at the head.
* Python dynamic values on the operand stack are modelled by the closed
  union 值 of the types the program actually puts there: int, float
  (modelled as an exact rational; no claim depends on rounding), bool,
  str and None.
* The byte array 堆内存 is modelled as a function from byte index to byte
  content together with an explicit 内存大小.
* Host effects (subprocess, file I/O, AI HTTP calls behind 调用外部, and
  the Python eval used by the debugger for breakpoint conditions) are
  outside a shallow embedding; they are modelled as injected oracles
  (外部结果流, 条件求值).  No claim exercises them.
* Python str % (printf-style formatting, reachable through the 取模
  dispatch on a string left operand) is modelled in full for the value
  universe: success and failure follow CPython, and the text of float
  conversions renders the model's exact rationals.
-/

/-- Dynamic values of the virtual machine (Python objects on the operand
stack): integers, floats (as exact rationals), booleans, strings, None. -/
inductive «值» where
  | «整数» : Int → «值»
  | «浮点» : Rat → «值»
  | «布尔» : Bool → «值»
  | «字符串» : String → «值»
  | «无» : «值»
deriving DecidableEq, Repr

/-- A stack-machine instruction `指令(操作码, 操作数)` from 代数数据类型ADT.py:
an opcode string together with an optional operand (`None` when absent). -/
structure «指令» where
  «操作码» : String
  «操作数» : «值» := «值».«无»
deriving DecidableEq, Repr

/-- Error severity levels (错误级别 in 异常处理.py). -/
inductive «错误级别» where
  | «信息» | «警告» | «错误» | «严重»
deriving DecidableEq, Repr

/-- Error classes (错误类型 in 异常处理.py). -/
inductive «错误类型» where
  | «词法错误» | «语法错误» | «语义错误» | «类型错误» | «运行时错误» | «内存错误» | «除零错误» | «未知错误»
deriving DecidableEq, Repr

/-- An error record (错误节点 in 异常处理.py) appended to the error log of
the 异常处理中心 whenever a fault is recorded. -/
structure «错误节点» where
  «错误信息» : String
  «行号» : Nat
  «列号» : Nat
  «类别» : «错误类型» := «错误类型».«未知错误»
  «严重程度» : «错误级别» := «错误级别».«错误»
  «源文件» : String := ""
  «详细信息» : String := ""
deriving DecidableEq, Repr

/-- A call frame pushed by 执行调用指令: return address, the caller's
frame pointer, and (unused) local bindings. -/
structure «调用帧» where
  «返回地址» : Nat
  «栈帧指针» : Nat
  «局部变量» : List (String × «值») := []
deriving DecidableEq, Repr

/-- An exception context pushed by 触发异常: message, pc at the fault,
a snapshot of the operand stack, and the call-stack depth. -/
structure «异常上下文» where
  «异常信息» : String
  «程序计数器» : Nat
  «操作数栈快照» : List «值»
  «调用栈深度» : Nat
deriving DecidableEq, Repr

/-- VM state: the fields of 纯栈机虚拟机.__init__ together with the
异常处理中心 fields it owns (error log and handler map) and the oracle
stream for host-effect external calls. -/
structure «虚拟机» where
  «操作数栈» : List «值»
  «调用栈» : List «调用帧»
  «异常处理栈» : List «异常上下文»
  «指令存储器» : List «指令»
  «内存大小» : Nat
  «堆内存» : Nat → Nat
  «程序计数器» : Nat
  «栈帧指针» : Nat
  «堆指针» : Nat
  «运行标志» : Bool
  «异常标志» : Bool
  «当前异常信息» : String
  «指令计数» : Nat
  «栈最大深度» : Nat
  «异常记录列表» : List «错误节点»
  «异常处理程序映射» : List (String × Int)
  «调试模式» : Bool
  «断点集合» : List Nat
  «单步模式» : Bool
  «外部结果流» : List Bool

/-- 纯栈机虚拟机.__init__: empty stacks, zeroed heap of the given size,
pc 0, running, no fault, empty error log, no handlers, debug off. -/
def «初始虚拟机» («大小» : Nat) : «虚拟机» where
  «操作数栈» := []
  «调用栈» := []
  «异常处理栈» := []
  «指令存储器» := []
  «内存大小» := «大小»
  «堆内存» := fun _ => 0
  «程序计数器» := 0
  «栈帧指针» := 0
  «堆指针» := 0
  «运行标志» := true
  «异常标志» := false
  «当前异常信息» := ""
  «指令计数» := 0
  «栈最大深度» := 0
  «异常记录列表» := []
  «异常处理程序映射» := []
  «调试模式» := false
  «断点集合» := []
  «单步模式» := false
  «外部结果流» := []

/-- Python `target in s` substring test on character lists. -/
def «列表是子串» («目标» : List Char) : List Char → Bool
  | [] => «目标».isEmpty
  | c :: «剩» => «目标».isPrefixOf (c :: «剩») || «列表是子串» «目标» «剩»

/-- Python `目标 in 串` for strings. -/
def «是子串» («目标» «串» : String) : Bool :=
  «列表是子串» «目标».data «串».data

/-- 异常处理中心.查找异常处理程序: first registered handler whose key occurs
in the message, else the entry registered under "默认". -/
def «查找异常处理程序» («映射» : List (String × Int)) («异常信息» : String) : Option Int :=
  match «映射».find? (fun «项» => «是子串» «项».1 «异常信息») with
  | some «项» => some «项».2
  | none => («映射».find? (fun «项» => «项».1 = "默认")).map (fun «项» => «项».2)

/-- 恢复树节点.获取恢复策略: the static fault-class → recovery-policy map. -/
def «获取恢复策略» («类型名» : String) : String :=
  if «类型名» = "词法错误" then "跳过字符"
  else if «类型名» = "语法错误" then "恐慌模式"
  else if «类型名» = "类型错误" then "类型强制转换"
  else if «类型名» = "除零错误" then "返回默认值"
  else if «类型名» = "内存错误" then "中止执行"
  else if «类型名» = "运行时错误" then "默认恢复"
  else "默认恢复"

/-- 纯栈机虚拟机.处理异常: with an empty exception stack stop the run;
otherwise look up a handler for the top context: a positive handler
address resumes there and clears the fault flag, else the context is
popped and, if none remain, the run stops. -/
def «处理异常» (s : «虚拟机») : «虚拟机» :=
  match s.«异常处理栈» with
  | [] => { s with «运行标志» := false }
  | «上下文» :: «剩余» =>
    match «查找异常处理程序» s.«异常处理程序映射» «上下文».«异常信息» with
    | some «地址» =>
      if «地址» > 0 then
        { s with «程序计数器» := «地址».toNat, «异常标志» := false, «当前异常信息» := "" }
      else
        { s with «异常处理栈» := «剩余»,
                 «运行标志» := if «剩余».isEmpty then false else s.«运行标志» }
    | none =>
      { s with «异常处理栈» := «剩余»,
               «运行标志» := if «剩余».isEmpty then false else s.«运行标志» }

/-- 纯栈机虚拟机.触发异常: set the fault flag and message, append an error
record to the error log, push an exception context, then run 处理异常. -/
def «触发异常» (s : «虚拟机») («异常信息» : String) : «虚拟机» :=
  «处理异常»
    { s with
        «异常标志» := true
        «当前异常信息» := «异常信息»
        «异常记录列表» := s.«异常记录列表» ++
          [{ «错误信息» := «异常信息», «行号» := s.«程序计数器», «列号» := 0,
             «类别» := «错误类型».«运行时错误», «严重程度» := «错误级别».«错误» }]
        «异常处理栈» :=
          { «异常信息» := «异常信息», «程序计数器» := s.«程序计数器»,
            «操作数栈快照» := s.«操作数栈»,
            «调用栈深度» := s.«调用栈».length } :: s.«异常处理栈» }

/-- Python truthiness `bool(v)` for the modelled value universe. -/
def «真值» : «值» → Bool
  | «值».«整数» v => v != 0
  | «值».«浮点» q => q != 0
  | «值».«布尔» b => b
  | «值».«字符串» s => s != ""
  | «值».«无» => false

/-- Numeric view of a value (int, float, bool are numbers in Python;
`True == 1`). -/
def «数值化» : «值» → Option Rat
  | «值».«整数» v => some (v : Rat)
  | «值».«浮点» q => some q
  | «值».«布尔» b => some (if b then 1 else 0)
  | _ => none

/-- Integer view of a value (Python ints and bools). -/
def «整数值» : «值» → Option Int
  | «值».«整数» v => some v
  | «值».«布尔» b => some (if b then 1 else 0)
  | _ => none

/-- Truncation toward zero, Python `int(float)`. -/
def «截断» (q : Rat) : Int :=
  if 0 ≤ q then ⌊q⌋ else ⌈q⌉

/-- Rounding half-to-even of a nonnegative rational to an integer
(the rounding Python's float formatting performs). -/
def «四舍六入» (r : Rat) : Nat :=
  let n := (⌊r⌋).toNat
  let «余» := r - (n : Rat)
  if «余» > 1 / 2 then n + 1
  else if «余» < 1 / 2 then n
  else if n % 2 = 0 then n else n + 1

/-- Fixed-point rendering of the magnitude of a rational with the given
number of fractional digits (no sign). -/
def «定点体» (q : Rat) («精度» : Nat) : List Char :=
  let aq := if q < 0 then -q else q
  let n := «四舍六入» (aq * ((10 ^ «精度» : Nat) : Rat))
  let s := (toString n).data
  let s := if s.length < «精度» + 1 then List.replicate («精度» + 1 - s.length) '0' ++ s else s
  if «精度» = 0 then s
  else s.take (s.length - «精度») ++ '.' :: s.drop (s.length - «精度»)

/-- Number of decimal digits of a natural number. -/
def «位数» (n : Nat) : Nat :=
  (toString n).length

/-- The rational 10^e for an integer exponent. -/
def «十次幂» (e : Int) : Rat :=
  if 0 ≤ e then ((10 ^ e.toNat : Nat) : Rat) else 1 / ((10 ^ (-e).toNat : Nat) : Rat)

/-- The decimal exponent of a positive rational: the unique e with
10^e ≤ q < 10^(e+1). -/
def «指数估计» (q : Rat) : Int :=
  let est : Int := («位数» q.num.natAbs : Int) - («位数» q.den : Int)
  if q < «十次幂» est then est - 1 else est

/-- Scientific rendering of the magnitude of a rational with the given
number of fractional mantissa digits (no sign). -/
def «科学体» (q : Rat) («精度» : Nat) («大写» : Bool) : List Char :=
  let aq := if q < 0 then -q else q
  let «指数字符» : Char := if «大写» then 'E' else 'e'
  if aq = 0 then
    «定点体» 0 «精度» ++ [«指数字符», '+', '0', '0']
  else
    let e0 := «指数估计» aq
    let n := «四舍六入» (aq / «十次幂» (e0 - («精度» : Int)))
    let «对» := if n ≥ 10 ^ («精度» + 1) then (n / 10, e0 + 1) else (n, e0)
    let s := (toString «对».1).data
    let «体» := if «精度» = 0 then s else s.take 1 ++ '.' :: s.drop 1
    let eds := (toString «对».2.natAbs).data
    let eds := if eds.length < 2 then '0' :: eds else eds
    «体» ++ «指数字符» :: (if «对».2 < 0 then '-' else '+') :: eds

/-- Strip trailing fractional zeros (and a bare decimal point) from a
fixed-point rendering, as %g does without the # flag. -/
def «去尾零» («带井» : Bool) (s : List Char) : List Char :=
  if «带井» then s
  else if s.contains '.' then
    let r := s.reverse.dropWhile (fun c => c = '0')
    let r := match r with
      | '.' :: «剩» => «剩»
      | _ => r
    r.reverse
  else s

/-- Strip trailing mantissa zeros of a scientific rendering. -/
def «科学去尾零» («带井» : Bool) (s : List Char) : List Char :=
  let «分» := s.span (fun c => c ≠ 'e' ∧ c ≠ 'E')
  «去尾零» «带井» «分».1 ++ «分».2

/-- The %g rendering of the magnitude of a rational: fixed or
scientific depending on the decimal exponent, trailing zeros stripped
unless the # flag is set. -/
def «通用体» (q : Rat) («精度0» : Nat) («大写» «带井» : Bool) : List Char :=
  let p := max 1 «精度0»
  let aq := if q < 0 then -q else q
  if aq = 0 then «去尾零» «带井» («定点体» 0 (p - 1))
  else
    let e0 := «指数估计» aq
    let n := «四舍六入» (aq / «十次幂» (e0 - ((p : Int) - 1)))
    let e1 := if n ≥ 10 ^ p then e0 + 1 else e0
    if -4 ≤ e1 ∧ e1 < (p : Int) then
      «去尾零» «带井» («定点体» aq (((p : Int) - 1 - e1).toNat))
    else
      «科学去尾零» «带井» («科学体» aq (p - 1) «大写»)

/-- Python `str(float)` on the model's exact-rational floats: a fixed
17-digit rendering with trailing zeros stripped, at least one
fractional digit kept.  (Real Python renders shortest-roundtrip digits
of the binary double; on the model's exact rationals this agrees on
exactly-representable values such as 2.5 or 6.0.) -/
def «浮点转字符串» (q : Rat) : String :=
  let «体» := «去尾零» false («定点体» q 17)
  let «体» := if «体».contains '.' then «体» else «体» ++ ['.', '0']
  String.mk ((if q < 0 then ['-'] else []) ++ «体»)

/-- Python `str(v)` on the modelled value universe. -/
def «值转字符串» : «值» → String
  | «值».«整数» n => toString n
  | «值».«浮点» q => «浮点转字符串» q
  | «值».«布尔» b => if b then "True" else "False"
  | «值».«字符串» s => s
  | «值».«无» => "None"

/-- Python `repr(str)`: quote preferring single quotes, escaping the
quote character, backslashes and ASCII control characters (non-ASCII
printable characters are kept verbatim). -/
def «字符串表示» (s : String) : String :=
  let «单引» : Char := Char.ofNat 39
  let «引» : Char := if s.data.contains «单引» ∧ ¬s.data.contains '"' then '"' else «单引»
  let «逐» : Char → List Char := fun c =>
    if c = '\\' then ['\\', '\\']
    else if c = «引» then ['\\', «引»]
    else if c = '\n' then ['\\', 'n']
    else if c = '\r' then ['\\', 'r']
    else if c = '\t' then ['\\', 't']
    else if c.toNat < 32 ∨ c.toNat = 127 then
      ['\\', 'x'] ++ (if c.toNat < 16 then '0' :: Nat.toDigits 16 c.toNat
                      else Nat.toDigits 16 c.toNat)
    else [c]
  String.mk («引» :: s.data.flatMap «逐» ++ [«引»])

/-- Python `repr(v)` on the modelled value universe. -/
def «值转表示» : «值» → String
  | «值».«字符串» s => «字符串表示» s
  | v => «值转字符串» v

/-- A parsed printf-style conversion specifier of Python's str %. -/
structure «格式说明» where
  «井号» : Bool := false
  «旗零» : Bool := false
  «旗负» : Bool := false
  «旗空格» : Bool := false
  «旗正» : Bool := false
  «宽度星» : Bool := false
  «宽度» : Nat := 0
  «精度给定» : Bool := false
  «精度星» : Bool := false
  «精度» : Nat := 0
  «转换» : Char := 's'

/-- Parse the flag characters of a conversion specifier. -/
def «解析旗标» : List Char → «格式说明» → «格式说明» × List Char
  | '#' :: r, g => «解析旗标» r { g with «井号» := true }
  | '0' :: r, g => «解析旗标» r { g with «旗零» := true }
  | '-' :: r, g => «解析旗标» r { g with «旗负» := true }
  | ' ' :: r, g => «解析旗标» r { g with «旗空格» := true }
  | '+' :: r, g => «解析旗标» r { g with «旗正» := true }
  | r, g => (g, r)

/-- Parse a decimal number (empty digit run yields the accumulator). -/
def «解析数字» : List Char → Nat → Nat × List Char
  | c :: r, acc => if c.isDigit then «解析数字» r (acc * 10 + (c.toNat - 48)) else (acc, c :: r)
  | [], acc => (acc, [])

/-- Parse one conversion specifier after the %.  A mapping key
`(name)` fails (format requires a mapping; the argument is never a
dict in the modelled universe), as does a format string ending inside
the specifier (incomplete format). -/
def «解析格式段» (l : List Char) : Option («格式说明» × List Char) :=
  match l with
  | '(' :: _ => none
  | _ =>
    let «步0» := «解析旗标» l {}
    let «步1» : «格式说明» × List Char :=
      match «步0».2 with
      | '*' :: r => ({ «步0».1 with «宽度星» := true }, r)
      | _ =>
        let «数» := «解析数字» «步0».2 0
        ({ «步0».1 with «宽度» := «数».1 }, «数».2)
    let «步2» : «格式说明» × List Char :=
      match «步1».2 with
      | '.' :: '*' :: r => ({ «步1».1 with «精度给定» := true, «精度星» := true }, r)
      | '.' :: r =>
        let «数» := «解析数字» r 0
        ({ «步1».1 with «精度给定» := true, «精度» := «数».1 }, «数».2)
      | _ => «步1»
    let «步3» : List Char :=
      match «步2».2 with
      | c :: r => if c = 'h' ∨ c = 'l' ∨ c = 'L' then r else c :: r
      | [] => []
    match «步3» with
    | c :: r => some ({ «步2».1 with «转换» := c }, r)
    | [] => none

/-- Assemble sign, prefix and body, applying zero or space padding to
the requested width ('-' left-justifies and wins over '0'). -/
def «补齐» («左» «零» : Bool) («宽度» : Nat) («符号» «前缀» «体» : List Char) : List Char :=
  let «长» := «符号».length + «前缀».length + «体».length
  if «宽度» ≤ «长» then «符号» ++ «前缀» ++ «体»
  else if «左» then («符号» ++ «前缀» ++ «体») ++ List.replicate («宽度» - «长») ' '
  else if «零» then «符号» ++ «前缀» ++ List.replicate («宽度» - «长») '0' ++ «体»
  else List.replicate («宽度» - «长») ' ' ++ «符号» ++ «前缀» ++ «体»

/-- The sign characters of a numeric conversion under the + and space
flags. -/
def «整数符号» (g : «格式说明») («负» : Bool) : List Char :=
  if «负» then ['-'] else if g.«旗正» then ['+'] else if g.«旗空格» then [' '] else []

/-- The %d family accepts ints, bools and floats (truncated toward
zero). -/
def «整数或截断» : «值» → Option Int
  | «值».«浮点» q => some («截断» q)
  | v => «整数值» v

/-- Consume the single argument as an int for a `*` width or
precision. -/
def «星取整» (v : «值») (used : Bool) : Option (Int × Bool) :=
  if used then none
  else match «整数值» v with
    | some n => some (n, true)
    | none => none

/-- Format the argument under one conversion specifier (the argument is
available; failure is the TypeError/ValueError of the conversion). -/
def «转换值» (g : «格式说明») (v : «值») : Option (List Char) :=
  if g.«转换» = 's' ∨ g.«转换» = 'r' ∨ g.«转换» = 'a' then
    let «文» := if g.«转换» = 's' then («值转字符串» v).data else («值转表示» v).data
    let «文» := if g.«精度给定» then «文».take g.«精度» else «文»
    some («补齐» g.«旗负» false g.«宽度» [] [] «文»)
  else if g.«转换» = 'd' ∨ g.«转换» = 'i' ∨ g.«转换» = 'u' then
    match «整数或截断» v with
    | some n =>
      let ds := (toString n.natAbs).data
      let ds := if g.«精度给定» ∧ ds.length < g.«精度» then
          List.replicate (g.«精度» - ds.length) '0' ++ ds
        else ds
      some («补齐» g.«旗负» (g.«旗零» && !g.«精度给定») g.«宽度» («整数符号» g (n < 0)) [] ds)
    | none => none
  else if g.«转换» = 'x' ∨ g.«转换» = 'X' ∨ g.«转换» = 'o' then
    match «整数值» v with
    | some n =>
      let «底» := if g.«转换» = 'o' then 8 else 16
      let ds := Nat.toDigits «底» n.natAbs
      let ds := if g.«转换» = 'X' then ds.map Char.toUpper else ds
      let ds := if g.«精度给定» ∧ ds.length < g.«精度» then
          List.replicate (g.«精度» - ds.length) '0' ++ ds
        else ds
      let «前缀» := if g.«井号» then
          (if g.«转换» = 'o' then ['0', 'o'] else if g.«转换» = 'X' then ['0', 'X'] else ['0', 'x'])
        else []
      some («补齐» g.«旗负» (g.«旗零» && !g.«精度给定») g.«宽度» («整数符号» g (n < 0)) «前缀» ds)
    | none => none
  else if g.«转换» = 'c' then
    match v with
    | «值».«字符串» s =>
      if s.length = 1 then some («补齐» g.«旗负» false g.«宽度» [] [] s.data) else none
    | _ =>
      match «整数值» v with
      | some n =>
        if 0 ≤ n ∧ n < 1114112 then
          some («补齐» g.«旗负» false g.«宽度» [] [] [Char.ofNat n.toNat])
        else none
      | none => none
  else if g.«转换» = 'f' ∨ g.«转换» = 'F' then
    match «数值化» v with
    | some q =>
      let p := if g.«精度给定» then g.«精度» else 6
      let «体» := «定点体» q p ++ (if p = 0 ∧ g.«井号» then ['.'] else [])
      some («补齐» g.«旗负» g.«旗零» g.«宽度» («整数符号» g (q < 0)) [] «体»)
    | none => none
  else if g.«转换» = 'e' ∨ g.«转换» = 'E' then
    match «数值化» v with
    | some q =>
      let p := if g.«精度给定» then g.«精度» else 6
      let «体» := «科学体» q p (g.«转换» = 'E')
      some («补齐» g.«旗负» g.«旗零» g.«宽度» («整数符号» g (q < 0)) [] «体»)
    | none => none
  else if g.«转换» = 'g' ∨ g.«转换» = 'G' then
    match «数值化» v with
    | some q =>
      let p := if g.«精度给定» then g.«精度» else 6
      let «体» := «通用体» q p (g.«转换» = 'G') g.«井号»
      some («补齐» g.«旗负» g.«旗零» g.«宽度» («整数符号» g (q < 0)) [] «体»)
    | none => none
  else none

/-- Apply one specifier, resolving `*` width/precision (each consumes
the single argument) and then the conversion; every
conversion needs the argument (else: not enough arguments) — a bare
`%%` is handled by the scanning loop and a parsed specifier ending in
the conversion character `%` is unsupported, as in CPython. -/
def «转换片» (g0 : «格式说明») (v : «值») (used0 : Bool) : Option (List Char × Bool) :=
  let «步宽» : Option («格式说明» × Bool) :=
    if g0.«宽度星» then
      match «星取整» v used0 with
      | some (n, u) =>
        some (if n < 0 then { g0 with «旗负» := true, «宽度» := (-n).toNat, «宽度星» := false }
              else { g0 with «宽度» := n.toNat, «宽度星» := false }, u)
      | none => none
    else some (g0, used0)
  match «步宽» with
  | none => none
  | some (g1, used1) =>
    let «步精» : Option («格式说明» × Bool) :=
      if g1.«精度星» then
        match «星取整» v used1 with
        | some (n, u) => some ({ g1 with «精度» := n.toNat, «精度星» := false }, u)
        | none => none
      else some (g1, used1)
    match «步精» with
    | none => none
    | some (g2, used2) =>
      if used2 then none
      else
        match «转换值» g2 v with
        | some «片» => some («片», true)
        | none => none

/-- The scanning loop of Python str %, fuelled by the format string's
length (each iteration consumes at least one character, so the fuel
never runs out on the initial call). -/
def «格式化循环» (v : «值») : Nat → List Char → Bool → Option (List Char × Bool)
  | 0, _, _ => none
  | _ + 1, [], used => some ([], used)
  | «燃料» + 1, '%' :: '%' :: «剩», used =>
    match «格式化循环» v «燃料» «剩» used with
    | none => none
    | some («尾», used2) => some ('%' :: «尾», used2)
  | «燃料» + 1, '%' :: «剩», used =>
    match «解析格式段» «剩» with
    | none => none
    | some (g, «剩2») =>
      match «转换片» g v used with
      | none => none
      | some («片», used2) =>
        match «格式化循环» v «燃料» «剩2» used2 with
        | none => none
        | some («尾», used3) => some («片» ++ «尾», used3)
  | «燃料» + 1, c :: «剩», used =>
    match «格式化循环» v «燃料» «剩» used with
    | none => none
    | some («尾», used2) => some (c :: «尾», used2)

/-- Python `格式串 % v` for a single non-tuple, non-dict argument (the
only shape the modelled universe has): every consuming specifier needs
the argument, and the argument must be consumed exactly once (else:
not enough arguments / not all arguments converted).  Success and
failure follow CPython; the text of float conversions renders the
model's exact rationals (see the module conventions). -/
def «格式化字符串» («格式串» : String) (v : «值») : Option String :=
  match «格式化循环» v («格式串».data.length + 1) «格式串».data false with
  | some («出», true) => some (String.mk «出»)
  | some (_, false) => none
  | none => none

/-- Python `int(v)`: ints and bools directly, floats truncate toward
zero, strings parse as decimal integers, None has no conversion. -/
def «转整数» : «值» → Option Int
  | «值».«整数» v => some v
  | «值».«布尔» b => some (if b then 1 else 0)
  | «值».«浮点» q => some («截断» q)
  | «值».«字符串» s => s.toInt?
  | «值».«无» => none

/-- Python `a == b` on the modelled universe: numbers compare
numerically across int/float/bool, strings compare as strings,
`None == None`, everything else is unequal. -/
def «等于判定» (a b : «值») : Bool :=
  match «数值化» a, «数值化» b with
  | some x, some y => x == y
  | _, _ =>
    match a, b with
    | «值».«字符串» s, «值».«字符串» t => s == t
    | «值».«无», «值».«无» => true
    | _, _ => false

/-- Python `a < b`: numbers compare numerically, strings
lexicographically; mixed/None comparisons raise TypeError (`none`). -/
def «小于判定» (a b : «值») : Option Bool :=
  match «数值化» a, «数值化» b with
  | some x, some y => some (decide (x < y))
  | _, _ =>
    match a, b with
    | «值».«字符串» s, «值».«字符串» t => some (decide (s < t))
    | _, _ => none

/-- Python `s * n` string repetition (empty for `n ≤ 0`). -/
def «重复字符串» (n : Int) (s : String) : String :=
  String.join (List.replicate n.toNat s)

/-- The `lambda a, b: a + b` of the 加法 dispatch under Python semantics:
int-like + int-like is an int, numeric + numeric is a float,
str + str concatenates; anything else raises TypeError (`none`). -/
def «加法运算» (a b : «值») : Option «值» :=
  match «整数值» a, «整数值» b with
  | some x, some y => some («值».«整数» (x + y))
  | _, _ =>
    match «数值化» a, «数值化» b with
    | some x, some y => some («值».«浮点» (x + y))
    | _, _ =>
      match a, b with
      | «值».«字符串» s, «值».«字符串» t => some («值».«字符串» (s ++ t))
      | _, _ => none

/-- The `lambda a, b: a - b` of the 减法 dispatch under Python semantics. -/
def «减法运算» (a b : «值») : Option «值» :=
  match «整数值» a, «整数值» b with
  | some x, some y => some («值».«整数» (x - y))
  | _, _ =>
    match «数值化» a, «数值化» b with
    | some x, some y => some («值».«浮点» (x - y))
    | _, _ => none

/-- The `lambda a, b: a * b` of the 乘法 dispatch under Python semantics
(including str * int repetition). -/
def «乘法运算» (a b : «值») : Option «值» :=
  match «整数值» a, «整数值» b with
  | some x, some y => some («值».«整数» (x * y))
  | _, _ =>
    match «数值化» a, «数值化» b with
    | some x, some y => some («值».«浮点» (x * y))
    | _, _ =>
      match a, b with
      | «值».«字符串» s, _ =>
        match «整数值» b with
        | some n => some («值».«字符串» («重复字符串» n s))
        | none => none
      | _, «值».«字符串» t =>
        match «整数值» a with
        | some n => some («值».«字符串» («重复字符串» n t))
        | none => none
      | _, _ => none

/-- Python true division `a / b` on numbers: always a float. -/
def «除法运算» (a b : «值») : Option «值» :=
  match «数值化» a, «数值化» b with
  | some x, some y => some («值».«浮点» (x / y))
  | _, _ => none

/-- Python `a % b` for nonzero `b`: a string left operand performs
printf-style string formatting with b as the single argument; int-like
pairs use floor-mod (`Int.fmod` matches Python `%`), numeric pairs
`x - y * ⌊x / y⌋`. -/
def «取模运算» (a b : «值») : Option «值» :=
  match a with
  | «值».«字符串» s => («格式化字符串» s b).map «值».«字符串»
  | _ =>
    match «整数值» a, «整数值» b with
    | some x, some y => some («值».«整数» (Int.fmod x y))
    | _, _ =>
      match «数值化» a, «数值化» b with
      | some x, some y => some («值».«浮点» (x - y * (⌊x / y⌋ : Int)))
      | _, _ => none

/-- Byte `i` of the 4-byte little-endian two's-complement encoding
produced by `int.to_bytes(4, 'little', signed=True)`. -/
def «编码字节» (v : Int) (i : Nat) : Nat :=
  ((v.emod (2 ^ 32)).toNat / 2 ^ (8 * i)) % 256

/-- `int.from_bytes(b, 'little', signed=True)` on four bytes. -/
def «解码四字节» (b0 b1 b2 b3 : Nat) : Int :=
  let u : Nat := b0 + 2 ^ 8 * b1 + 2 ^ 16 * b2 + 2 ^ 24 * b3
  if u < 2 ^ 31 then (u : Int) else (u : Int) - 2 ^ 32

/-- `堆内存[地址:地址+4] = 字节值`: overwrite the 4-byte cell at `a`. -/
def «写四字节» («堆» : Nat → Nat) (a : Nat) (v : Int) : Nat → Nat :=
  fun i => if a ≤ i ∧ i < a + 4 then «编码字节» v (i - a) else «堆» i

/-- `int.from_bytes(堆内存[地址:地址+4], 'little', signed=True)`. -/
def «读四字节» («堆» : Nat → Nat) (a : Nat) : Int :=
  «解码四字节» («堆» a) («堆» (a + 1)) («堆» (a + 2)) («堆» (a + 3))

/-- 纯栈机虚拟机.查找标签地址: index of the first 标签 instruction whose
operand equals the requested label (Python `==`), if any. -/
def «查找标签地址» («程序» : List «指令») («标签» : «值») : Option Nat :=
  «程序».findIdx? (fun «指» => «指».«操作码» == "标签" && «等于判定» «指».«操作数» «标签»)

/-- 执行推入指令: push the instruction operand. -/
def «执行推入指令» (s : «虚拟机») («指» : «指令») : «虚拟机» :=
  { s with «操作数栈» := «指».«操作数» :: s.«操作数栈» }

/-- 执行弹出指令: pop the top of the operand stack, faulting with
"操作数栈下溢" on an empty stack. -/
def «执行弹出指令» (s : «虚拟机») : «虚拟机» :=
  match s.«操作数栈» with
  | _ :: «剩余» => { s with «操作数栈» := «剩余» }
  | [] => «触发异常» s "操作数栈下溢"

/-- 执行二元算术指令: pop the right operand, then the left, apply the
operand function and push the result; a raising operand function faults
after the pops. -/
def «执行二元算术指令» (s : «虚拟机») («操作» : «值» → «值» → Option «值») («指令名称» : String) : «虚拟机» :=
  match s.«操作数栈» with
  | «右» :: «左» :: «剩余» =>
    match «操作» «左» «右» with
    | some «结果» => { s with «操作数栈» := «结果» :: «剩余» }
    | none => «触发异常» { s with «操作数栈» := «剩余» } («指令名称» ++ "运算错误")
  | _ => «触发异常» s («指令名称» ++ "操作数不足")

/-- 执行除法指令: on a zero right operand record the 除零错误 fault and,
as the recovery policy is 返回默认值, push the default 0; otherwise push
the float quotient. -/
def «执行除法指令» (s : «虚拟机») : «虚拟机» :=
  match s.«操作数栈» with
  | «右» :: «左» :: «剩余» =>
    if «等于判定» «右» («值».«整数» 0) then
      let s1 := «触发异常» { s with «操作数栈» := «剩余» } "除零错误"
      if «获取恢复策略» "除零错误" = "返回默认值" then
        { s1 with «操作数栈» := «值».«整数» 0 :: s1.«操作数栈» }
      else s1
    else
      match «除法运算» «左» «右» with
      | some «结果» => { s with «操作数栈» := «结果» :: «剩余» }
      | none => «触发异常» { s with «操作数栈» := «剩余» } "除法运算错误"
  | _ => «触发异常» s "除法操作数不足"

/-- The 取模 dispatch through 执行二元算术指令 with
`lambda a, b: a % b if b != 0 else self.触发异常("除零错误")`: on a zero
right operand the lambda itself fires the fault and returns None, which
the generic wrapper then pushes as the result. -/
def «执行取模指令» (s : «虚拟机») : «虚拟机» :=
  match s.«操作数栈» with
  | «右» :: «左» :: «剩余» =>
    if «等于判定» «右» («值».«整数» 0) then
      let s1 := «触发异常» { s with «操作数栈» := «剩余» } "除零错误"
      { s1 with «操作数栈» := «值».«无» :: s1.«操作数栈» }
    else
      match «取模运算» «左» «右» with
      | some «结果» => { s with «操作数栈» := «结果» :: «剩余» }
      | none => «触发异常» { s with «操作数栈» := «剩余» } "取模运算错误"
  | _ => «触发异常» s "取模操作数不足"

/-- 执行比较指令: pop right then left, apply the comparison and push the
integer 1 or 0; a TypeError inside the comparison is caught by the
dispatch loop of 执行单条指令 and faults after the pops. -/
def «执行比较指令» (s : «虚拟机») («比较» : «值» → «值» → Option Bool) : «虚拟机» :=
  match s.«操作数栈» with
  | «右» :: «左» :: «剩余» =>
    match «比较» «左» «右» with
    | some «结果» =>
      { s with «操作数栈» := (if «结果» then «值».«整数» 1 else «值».«整数» 0) :: «剩余» }
    | none => «触发异常» { s with «操作数栈» := «剩余» } "指令执行异常: 比较类型错误"
  | _ => «触发异常» s "比较操作数不足"

/-- 执行跳转指令: set pc to the label's address, faulting when the label
is missing. -/
def «执行跳转指令» (s : «虚拟机») («指» : «指令») : «虚拟机» :=
  match «查找标签地址» s.«指令存储器» «指».«操作数» with
  | some «目标地址» => { s with «程序计数器» := «目标地址» }
  | none => «触发异常» s "未找到标签"

/-- 执行条件跳转指令: pop the condition; when truthy jump to the label
if it exists (a missing label silently falls through). -/
def «执行条件跳转指令» (s : «虚拟机») («指» : «指令») : «虚拟机» :=
  match s.«操作数栈» with
  | [] => «触发异常» s "条件跳转操作数栈为空"
  | «条件» :: «剩余» =>
    let s1 := { s with «操作数栈» := «剩余» }
    if «真值» «条件» then
      match «查找标签地址» s1.«指令存储器» «指».«操作数» with
      | some «目标地址» => { s1 with «程序计数器» := «目标地址» }
      | none => s1
    else s1

/-- 执行调用指令: push the call frame (return address pc+1, caller frame
pointer), set the frame pointer to the new top, then jump to the label,
faulting when the function entry is missing (the frame stays pushed). -/
def «执行调用指令» (s : «虚拟机») («指» : «指令») : «虚拟机» :=
  let «帧» : «调用帧» := { «返回地址» := s.«程序计数器» + 1, «栈帧指针» := s.«栈帧指针» }
  let s1 := { s with «调用栈» := «帧» :: s.«调用栈» }
  let s2 := { s1 with «栈帧指针» := s1.«调用栈».length - 1 }
  match «查找标签地址» s2.«指令存储器» «指».«操作数» with
  | some «目标地址» => { s2 with «程序计数器» := «目标地址» }
  | none => «触发异常» s2 "未找到函数入口"

/-- 执行返回指令: fault on an empty call stack, else pop the frame and
restore pc and the frame pointer from it. -/
def «执行返回指令» (s : «虚拟机») : «虚拟机» :=
  match s.«调用栈» with
  | [] => «触发异常» s "调用栈为空"
  | «帧» :: «剩余» =>
    { s with «调用栈» := «剩余», «程序计数器» := «帧».«返回地址», «栈帧指针» := «帧».«栈帧指针» }

/-- 执行加载指令: push the signed 4-byte little-endian cell at the
operand address, with the source's bounds checks. -/
def «执行加载指令» (s : «虚拟机») («指» : «指令») : «虚拟机» :=
  match «整数值» «指».«操作数» with
  | none => «触发异常» s "无效的内存地址"
  | some «地址» =>
    if 0 ≤ «地址» ∧ «地址» < (s.«内存大小» : Int) then
      if «地址» + 4 ≤ (s.«内存大小» : Int) then
        { s with «操作数栈» := «值».«整数» («读四字节» s.«堆内存» «地址».toNat) :: s.«操作数栈» }
      else «触发异常» s "内存读取越界"
    else «触发异常» s "内存地址越界"

/-- 执行存储指令: pop the value; a non-int address faults and pushes the
value back; in-range addresses store `int(值)` as a signed 4-byte
little-endian cell, where an out-of-32-bit-range int raises
OverflowError in to_bytes and an inconvertible value raises in int(),
both caught by 执行单条指令 (the popped value is not restored). -/
def «执行存储指令» (s : «虚拟机») («指» : «指令») : «虚拟机» :=
  match s.«操作数栈» with
  | [] => «触发异常» s "存储操作数栈为空"
  | «值项» :: «剩余» =>
    let s1 := { s with «操作数栈» := «剩余» }
    match «整数值» «指».«操作数» with
    | none =>
      let s2 := «触发异常» s1 "无效的内存地址"
      { s2 with «操作数栈» := «值项» :: s2.«操作数栈» }
    | some «地址» =>
      if 0 ≤ «地址» ∧ «地址» < (s.«内存大小» : Int) then
        if «地址» + 4 ≤ (s.«内存大小» : Int) then
          match «转整数» «值项» with
          | some v =>
            if -(2 ^ 31) ≤ v ∧ v < 2 ^ 31 then
              { s1 with «堆内存» := «写四字节» s1.«堆内存» «地址».toNat v }
            else «触发异常» s1 "指令执行异常: 整数超出4字节范围"
          | none => «触发异常» s1 "指令执行异常: 无法转换为整数"
        else «触发异常» s1 "内存写入越界"
      else «触发异常» s1 "内存地址越界"

/-- Draw the next outcome from the oracle stream standing in for the
host effects of the external primitives (an empty stream reads as
failure). -/
def «取外部结果» (s : «虚拟机») : «虚拟机» × Bool :=
  match s.«外部结果流» with
  | [] => (s, false)
  | r :: «剩» => ({ s with «外部结果流» := «剩» }, r)

/-- 源方法 _执行验证器调用: pop the command, run it as a subprocess (modelled by
the oracle) and push the 1/0 status. -/
def «_执行验证器调用» (s : «虚拟机») : «虚拟机» :=
  match s.«操作数栈» with
  | [] => «触发异常» s "验证命令参数不足"
  | _ :: «剩余» =>
    let «结果» := «取外部结果» { s with «操作数栈» := «剩余» }
    { «结果».1 with
        «操作数栈» := (if «结果».2 then «值».«整数» 1 else «值».«整数» 0) :: «结果».1.«操作数栈» }

/-- 源方法 _执行持久化器调用: pop path and data, write JSON (modelled by the
oracle) and push the 1/0 status. -/
def «_执行持久化器调用» (s : «虚拟机») : «虚拟机» :=
  match s.«操作数栈» with
  | _ :: _ :: «剩余» =>
    let «结果» := «取外部结果» { s with «操作数栈» := «剩余» }
    { «结果».1 with
        «操作数栈» := (if «结果».2 then «值».«整数» 1 else «值».«整数» 0) :: «结果».1.«操作数栈» }
  | _ => «触发异常» s "持久化参数不足"

/-- 源方法 _执行AI调用器调用: pop the prompt, invoke the AI backend (modelled by
the oracle) and push the 1/0 status. -/
def «_执行AI调用器调用» (s : «虚拟机») : «虚拟机» :=
  match s.«操作数栈» with
  | [] => «触发异常» s "AI调用参数不足"
  | _ :: «剩余» =>
    let «结果» := «取外部结果» { s with «操作数栈» := «剩余» }
    { «结果».1 with
        «操作数栈» := (if «结果».2 then «值».«整数» 1 else «值».«整数» 0) :: «结果».1.«操作数栈» }

/-- 执行外部调用指令: dispatch on the primitive name, faulting on an
unknown external function. -/
def «执行外部调用指令» (s : «虚拟机») («指» : «指令») : «虚拟机» :=
  if «指».«操作数» = «值».«字符串» "验证器" then «_执行验证器调用» s
  else if «指».«操作数» = «值».«字符串» "持久化器" then «_执行持久化器调用» s
  else if «指».«操作数» = «值».«字符串» "AI调用器" then «_执行AI调用器调用» s
  else «触发异常» s "未知外部函数"

/-- 源方法 _执行指令: the opcode dispatch chain of the source. -/
def «_执行指令» (s : «虚拟机») («指» : «指令») : «虚拟机» :=
  if «指».«操作码» = "推入" then «执行推入指令» s «指»
  else if «指».«操作码» = "弹出" then «执行弹出指令» s
  else if «指».«操作码» = "加法" then «执行二元算术指令» s «加法运算» "加法"
  else if «指».«操作码» = "减法" then «执行二元算术指令» s «减法运算» "减法"
  else if «指».«操作码» = "乘法" then «执行二元算术指令» s «乘法运算» "乘法"
  else if «指».«操作码» = "除法" then «执行除法指令» s
  else if «指».«操作码» = "取模" then «执行取模指令» s
  else if «指».«操作码» = "等于" then «执行比较指令» s (fun a b => some («等于判定» a b))
  else if «指».«操作码» = "不等于" then «执行比较指令» s (fun a b => some (!«等于判定» a b))
  else if «指».«操作码» = "大于" then «执行比较指令» s (fun a b => «小于判定» b a)
  else if «指».«操作码» = "小于" then «执行比较指令» s (fun a b => «小于判定» a b)
  else if «指».«操作码» = "大于等于" then
    «执行比较指令» s (fun a b => («小于判定» a b).map (fun r => !r))
  else if «指».«操作码» = "小于等于" then
    «执行比较指令» s (fun a b => («小于判定» b a).map (fun r => !r))
  else if «指».«操作码» = "跳转" then «执行跳转指令» s «指»
  else if «指».«操作码» = "条件跳转" then «执行条件跳转指令» s «指»
  else if «指».«操作码» = "调用" then «执行调用指令» s «指»
  else if «指».«操作码» = "返回" then «执行返回指令» s
  else if «指».«操作码» = "加载" then «执行加载指令» s «指»
  else if «指».«操作码» = "存储" then «执行存储指令» s «指»
  else if «指».«操作码» = "标签" then s
  else if «指».«操作码» = "调用外部" then «执行外部调用指令» s «指»
  else if «指».«操作码» = "复制栈顶" then
    match s.«操作数栈» with
    | «顶» :: «剩余» => { s with «操作数栈» := «顶» :: «顶» :: «剩余» }
    | [] => s
  else if «指».«操作码» = "交换" then
    match s.«操作数栈» with
    | a :: b :: «剩余» => { s with «操作数栈» := b :: a :: «剩余» }
    | _ => s
  else if «指».«操作码» = "停机" then { s with «运行标志» := false }
  else if «指».«操作码» = "打印" then
    match s.«操作数栈» with
    | _ :: «剩余» => { s with «操作数栈» := «剩余» }
    | [] => s
  else if «指».«操作码» = "调试信息" then s
  else «触发异常» s "未知指令"

/-- 执行单条指令: fetch at pc (no-op past the end), dispatch, and — only
when the fault flag is clear — increment pc, uniformly for every opcode
including jumps, calls and returns. -/
def «执行单条指令» (s : «虚拟机») : «虚拟机» :=
  match s.«指令存储器»[s.«程序计数器»]? with
  | none => s
  | some «指» =>
    let s1 := «_执行指令» s «指»
    if s1.«异常标志» then s1 else { s1 with «程序计数器» := s1.«程序计数器» + 1 }

/-- 加载程序: store a copy of the program and reset pc, the run flag, the
fault flag and message, and the instruction count — and nothing else. -/
def «加载程序» (s : «虚拟机») («指令序列» : List «指令») : «虚拟机» :=
  { s with «指令存储器» := «指令序列», «程序计数器» := 0, «运行标志» := true,
           «异常标志» := false, «当前异常信息» := "", «指令计数» := 0 }

/-- 需要暂停: a breakpoint in debug mode, or single-step mode. -/
def «需要暂停» (s : «虚拟机») : Bool :=
  (s.«调试模式» && s.«断点集合».contains s.«程序计数器») || s.«单步模式»

/-- The per-tick counter updates of the 运行 loop. -/
def «统计更新» (s : «虚拟机») : «虚拟机» :=
  { s with «指令计数» := s.«指令计数» + 1,
           «栈最大深度» := max s.«栈最大深度» s.«操作数栈».length }

/-- The 运行 main loop, fuelled: while running and pc is in range,
execute one instruction and update the counters.  A tick that requests
suspension stops the model (处理暂停 is interactive). -/
def «运行步数» : «虚拟机» → Nat → «虚拟机»
  | s, 0 => s
  | s, n + 1 =>
    if s.«运行标志» ∧ s.«程序计数器» < s.«指令存储器».length then
      if «需要暂停» s then s
      else «运行步数» («统计更新» («执行单条指令» s)) n
    else s

/-- A breakpoint (断点 in 集成调试器.py). -/
structure «断点» where
  «行号» : Nat
  «指令地址» : Nat := 0
  «条件» : String := ""
  «命中次数» : Nat := 0
  «已启用» : Bool := true
deriving DecidableEq, Repr

/-- Debugger state (拉尔夫集成调试器).  The Python eval used for
breakpoint conditions is a host effect; it is modelled by the injected
oracle 条件求值 over the machine state (which subsumes the debug
context built by _创建调试上下文). -/
structure «调试器» where
  «机» : «虚拟机»
  «调试符号表» : List (String × Nat)
  «断点字典» : List (Nat × «断点»)
  «断点地址映射» : List (Nat × Nat)
  «监视表达式列表» : List String
  «调试模式» : Bool
  «单步模式» : Bool
  «步进类型» : String
  «当前函数深度» : Nat
  «目标函数深度» : Nat
  «条件求值» : String → «虚拟机» → Bool

/-- 拉尔夫集成调试器.__init__ on a given machine: no breakpoints, no
watches, debug off. -/
def «创建调试器» («机» : «虚拟机») («求值» : String → «虚拟机» → Bool) : «调试器» where
  «机» := «机»
  «调试符号表» := []
  «断点字典» := []
  «断点地址映射» := []
  «监视表达式列表» := []
  «调试模式» := false
  «单步模式» := false
  «步进类型» := ""
  «当前函数深度» := 0
  «目标函数深度» := 0
  «条件求值» := «求值»

/-- 断点.应该触发: disabled breakpoints never fire, an empty condition
always fires, otherwise the condition is evaluated (errors read as
false through the oracle). -/
def «断点应该触发» (b : «断点») («求值» : String → «虚拟机» → Bool) («机» : «虚拟机») : Bool :=
  if !b.«已启用» then false
  else if b.«条件» = "" then true
  else «求值» b.«条件» «机»

/-- 检查断点: fire iff the current pc maps to a line with an enabled
breakpoint whose condition holds; on fire increment its hit count. -/
def «检查断点» (d : «调试器») : «调试器» × Bool :=
  match d.«断点地址映射».lookup d.«机».«程序计数器» with
  | none => (d, false)
  | some «行号» =>
    match d.«断点字典».lookup «行号» with
    | none => (d, false)
    | some b =>
      if !b.«已启用» then (d, false)
      else if b.«条件» ≠ "" ∧ !«断点应该触发» b d.«条件求值» d.«机» then (d, false)
      else
        let b1 := { b with «命中次数» := b.«命中次数» + 1 }
        ({ d with «断点字典» :=
             d.«断点字典».map (fun p => if p.1 = «行号» then (p.1, b1) else p) }, true)

/-- 应该暂停: a breakpoint hit, or single-step mode. -/
def «应该暂停» (d : «调试器») : «调试器» × Bool :=
  let r := «检查断点» d
  if r.2 then (r.1, true) else (r.1, d.«单步模式»)

/-- 源方法 _执行一步: execute one instruction (when running), bump the
instruction count, then report whether to suspend. -/
def «_执行一步» (d : «调试器») : «调试器» × Bool :=
  if !d.«机».«运行标志» then (d, false)
  else
    let «机» := «执行单条指令» d.«机»
    let «机» := { «机» with «指令计数» := «机».«指令计数» + 1 }
    «应该暂停» { d with «机» := «机» }

/-- 源方法 _执行直到返回, fuelled: while running and pc in range, suspend on a
breakpoint hit or as soon as the call-stack depth is ≤ the target depth
— this check precedes any execution — else execute one instruction. -/
def «_执行直到返回» : «调试器» → Nat → Nat → «调试器» × Bool
  | d, _, 0 => (d, !d.«机».«运行标志»)
  | d, «目标深度», «燃料» + 1 =>
    if d.«机».«运行标志» ∧ d.«机».«程序计数器» < d.«机».«指令存储器».length then
      let r := «检查断点» d
      if r.2 then (r.1, true)
      else if r.1.«机».«调用栈».length ≤ «目标深度» then (r.1, true)
      else
        let «机» := «执行单条指令» r.1.«机»
        let «机» := { «机» with «指令计数» := «机».«指令计数» + 1 }
        «_执行直到返回» { r.1 with «机» := «机» } «目标深度» «燃料»
    else (d, !d.«机».«运行标志»)

/-- 单步执行: step (into) runs one instruction; next (over) and finish
(out) run _执行直到返回 against the recorded pre-step depth. -/
def «单步执行» (d : «调试器») («类型» : String) («燃料» : Nat) : «调试器» × Bool :=
  let d1 := { d with «调试模式» := true, «单步模式» := true, «步进类型» := «类型» }
  let «当前深度» := d1.«机».«调用栈».length
  if «类型» = "step" then «_执行一步» d1
  else if «类型» = "next" then
    «_执行直到返回» { d1 with «目标函数深度» := «当前深度» } «当前深度» «燃料»
  else if «类型» = "finish" then
    «_执行直到返回» { d1 with «目标函数深度» := «当前深度» - 1 } («当前深度» - 1) «燃料»
  else (d1, false)

/-- With no registered handler and an empty exception stack, 触发异常
aborts in place: running false, fault flag set, message stored, one
error record appended, and nothing else changed. -/
theorem «触发异常特征» (s : «虚拟机») (msg : String)
    (hm : s.«异常处理程序映射» = []) (hs : s.«异常处理栈» = []) :
    «触发异常» s msg =
      { s with «运行标志» := false, «异常标志» := true, «当前异常信息» := msg,
               «异常记录列表» := s.«异常记录列表» ++
                 [{ «错误信息» := msg, «行号» := s.«程序计数器», «列号» := 0,
                    «类别» := «错误类型».«运行时错误», «严重程度» := «错误级别».«错误» }] } := by
  simp [«触发异常», «处理异常», «查找异常处理程序», hm, hs]

/-- With no registered handler, a fault always leaves the fault flag
set (the only clearing site is the handler branch of 处理异常). -/
theorem «触发异常保持异常标志» (s : «虚拟机») (msg : String)
    (hm : s.«异常处理程序映射» = []) :
    («触发异常» s msg).«异常标志» = true := by
  simp [«触发异常», «处理异常», «查找异常处理程序», hm]

/-- 处理异常 never touches the operand stack, so 触发异常 leaves it as it
was at the fault site. -/
theorem «触发异常操作数栈» (s : «虚拟机») (msg : String) :
    («触发异常» s msg).«操作数栈» = s.«操作数栈» := by
  unfold «触发异常» «处理异常»
  cases h : «查找异常处理程序» s.«异常处理程序映射» msg <;> simp [h]
  split <;> rfl

/-- A stopped machine stays stopped: the 运行 loop does nothing. -/
theorem «运行停止不动» (s : «虚拟机») (n : Nat) (h : s.«运行标志» = false) :
    «运行步数» s n = s := by
  cases n with
  | zero => rfl
  | succ n => simp [«运行步数», h]

/-- C6: executing 弹出 on an empty operand stack raises a stack-underflow
fault that is fatal: running becomes false, pc does not advance (so no
later instruction such as 停机 is ever executed — the 运行 loop is a
fixpoint), the operand stack stays empty, and exactly one error record
is appended to the error log.  The hypotheses on the handler map and
exception stack state the configuration every machine constructed by the
repository is in (nothing ever registers a handler). -/
theorem «声称C6弹出空栈中止» (s : «虚拟机») (i : «指令»)
    (hf : s.«指令存储器»[s.«程序计数器»]? = some i)
    (hop : i.«操作码» = "弹出")
    (he : s.«操作数栈» = [])
    (hm : s.«异常处理程序映射» = [])
    (hs : s.«异常处理栈» = []) :
    («执行单条指令» s).«运行标志» = false ∧
    («执行单条指令» s).«程序计数器» = s.«程序计数器» ∧
    («执行单条指令» s).«操作数栈» = [] ∧
    («执行单条指令» s).«异常记录列表».length = s.«异常记录列表».length + 1 ∧
    ∀ n, «运行步数» («执行单条指令» s) n = «执行单条指令» s := by
  have e : «执行单条指令» s = «触发异常» s "操作数栈下溢" := by
    simp [«执行单条指令», hf, «_执行指令», hop, «执行弹出指令», he,
          «触发异常保持异常标志» s _ hm]
  rw [e, «触发异常特征» s _ hm hs]
  refine ⟨rfl, rfl, he, by simp, ?_⟩
  intro n
  exact «运行停止不动» _ n rfl

/-- C6 witness: a fresh machine loaded with `[弹出, 停机]`. -/
theorem «声称C6弹出空栈中止见证» :
    («执行单条指令» («加载程序» («初始虚拟机» 65536) [⟨"弹出", «值».«无»⟩, ⟨"停机", «值».«无»⟩])).«运行标志» = false ∧
    («执行单条指令» («加载程序» («初始虚拟机» 65536) [⟨"弹出", «值».«无»⟩, ⟨"停机", «值».«无»⟩])).«程序计数器» = 0 ∧
    («执行单条指令» («加载程序» («初始虚拟机» 65536) [⟨"弹出", «值».«无»⟩, ⟨"停机", «值».«无»⟩])).«操作数栈» = [] ∧
    («执行单条指令» («加载程序» («初始虚拟机» 65536) [⟨"弹出", «值».«无»⟩, ⟨"停机", «值».«无»⟩])).«异常记录列表».length = 1 := by
  have h := «声称C6弹出空栈中止» («加载程序» («初始虚拟机» 65536) [⟨"弹出", «值».«无»⟩, ⟨"停机", «值».«无»⟩])
    ⟨"弹出", «值».«无»⟩ rfl rfl rfl rfl rfl
  exact ⟨h.1, h.2.1, h.2.2.1, h.2.2.2.1⟩

/-- C9: 调用 to a label that does not exist pushes the call frame first
and only then faults, so the machine stops (running false, fault flag
set, pc unchanged) with the call stack one deeper — the push is not
rolled back.  Handler-map/exception-stack hypotheses as in C6. -/
theorem «声称C9调用缺失标签仍压帧» (s : «虚拟机») (i : «指令»)
    (hf : s.«指令存储器»[s.«程序计数器»]? = some i)
    (hop : i.«操作码» = "调用")
    (hmiss : «查找标签地址» s.«指令存储器» i.«操作数» = none)
    (hm : s.«异常处理程序映射» = [])
    (hs : s.«异常处理栈» = []) :
    («执行单条指令» s).«调用栈» =
      { «返回地址» := s.«程序计数器» + 1, «栈帧指针» := s.«栈帧指针», «局部变量» := [] } :: s.«调用栈» ∧
    («执行单条指令» s).«调用栈».length = s.«调用栈».length + 1 ∧
    («执行单条指令» s).«运行标志» = false ∧
    («执行单条指令» s).«异常标志» = true ∧
    («执行单条指令» s).«程序计数器» = s.«程序计数器» := by
  have e2 := «触发异常特征»
    { s with «调用栈» := { «返回地址» := s.«程序计数器» + 1, «栈帧指针» := s.«栈帧指针»,
                         «局部变量» := [] } :: s.«调用栈»,
             «栈帧指针» := s.«调用栈».length }
    "未找到函数入口" hm hs
  have e1 : «执行单条指令» s =
      «触发异常»
        { s with «调用栈» := { «返回地址» := s.«程序计数器» + 1, «栈帧指针» := s.«栈帧指针»,
                             «局部变量» := [] } :: s.«调用栈»,
                 «栈帧指针» := s.«调用栈».length }
        "未找到函数入口" := by
    simp [«执行单条指令», hf, «_执行指令», hop, «执行调用指令», hmiss,
          «触发异常保持异常标志», hm]
  rw [e1, e2]
  simp

/-- C9 witness: a fresh machine loaded with `[调用 "缺", 停机]`. -/
theorem «声称C9调用缺失标签仍压帧见证» :
    («执行单条指令» («加载程序» («初始虚拟机» 65536) [⟨"调用", «值».«字符串» "缺"⟩, ⟨"停机", «值».«无»⟩])).«调用栈» =
      [{ «返回地址» := 1, «栈帧指针» := 0, «局部变量» := [] }] ∧
    («执行单条指令» («加载程序» («初始虚拟机» 65536) [⟨"调用", «值».«字符串» "缺"⟩, ⟨"停机", «值».«无»⟩])).«运行标志» = false := by
  have h := «声称C9调用缺失标签仍压帧»
    («加载程序» («初始虚拟机» 65536) [⟨"调用", «值».«字符串» "缺"⟩, ⟨"停机", «值».«无»⟩])
    ⟨"调用", «值».«字符串» "缺"⟩ rfl rfl (by decide) rfl rfl
  exact ⟨h.1, h.2.2.1⟩

/-- C10: 复制栈顶 on an empty stack and 交换 on a stack of depth < 2 are
silent no-ops: no fault, and the only change is pc advancing by 1. -/
theorem «声称C10复制交换静默» (s : «虚拟机») (i : «指令»)
    (hflag : s.«异常标志» = false)
    (hf : s.«指令存储器»[s.«程序计数器»]? = some i)
    (hcase : (i.«操作码» = "复制栈顶" ∧ s.«操作数栈» = []) ∨
             (i.«操作码» = "交换" ∧ s.«操作数栈».length < 2)) :
    «执行单条指令» s = { s with «程序计数器» := s.«程序计数器» + 1 } := by
  rcases hcase with ⟨hop, he⟩ | ⟨hop, hlen⟩
  · simp [«执行单条指令», hf, «_执行指令», hop, he, hflag]
  · match hst : s.«操作数栈» with
    | [] => simp [«执行单条指令», hf, «_执行指令», hop, hst, hflag]
    | [x] => simp [«执行单条指令», hf, «_执行指令», hop, hst, hflag]
    | a :: b :: t => rw [hst] at hlen; simp at hlen; omega

/-- C10 witness: 交换 on the one-element stack `[整数 3]`. -/
theorem «声称C10复制交换静默见证» :
    «执行单条指令» { («加载程序» («初始虚拟机» 65536) [⟨"交换", «值».«无»⟩]) with «操作数栈» := [«值».«整数» 3] } =
      { («加载程序» («初始虚拟机» 65536) [⟨"交换", «值».«无»⟩]) with
          «操作数栈» := [«值».«整数» 3], «程序计数器» := 1 } :=
  «声称C10复制交换静默» _ ⟨"交换", «值».«无»⟩ rfl rfl (Or.inr ⟨rfl, by decide⟩)

/-- The spec's call/return scenario: `调用 f, 停机, 标签 f, 推入 42, 返回`. -/
def «程序C1» : List «指令» :=
  [⟨"调用", «值».«字符串» "f"⟩, ⟨"停机", «值».«无»⟩, ⟨"标签", «值».«字符串» "f"⟩,
   ⟨"推入", «值».«整数» 42⟩, ⟨"返回", «值».«无»⟩]

/-- C1 (code bug): 执行单条指令 increments pc after every non-faulting
instruction, 返回 included, so a 返回 resumes at 返回地址 + 1 instead of
the stored 返回地址 — the instruction following the 调用 is skipped.  On
the spec's own call/return scenario: the frame stores 返回地址 1 (the
停机 after the 调用), yet after the 返回 tick pc is 2, the function body
runs a second time (42 is pushed twice) and the run aborts on 返回 with
an empty call stack ("调用栈为空") without 停机 ever executing. -/
theorem «声称C1返回跳过调用后指令» :
    («运行步数» («加载程序» («初始虚拟机» 65536) «程序C1») 1).«调用栈» =
      [{ «返回地址» := 1, «栈帧指针» := 0, «局部变量» := [] }] ∧
    («运行步数» («加载程序» («初始虚拟机» 65536) «程序C1») 3).«程序计数器» = 2 ∧
    («运行步数» («加载程序» («初始虚拟机» 65536) «程序C1») 20).«运行标志» = false ∧
    («运行步数» («加载程序» («初始虚拟机» 65536) «程序C1») 20).«当前异常信息» = "调用栈为空" ∧
    («运行步数» («加载程序» («初始虚拟机» 65536) «程序C1») 20).«操作数栈» =
      [«值».«整数» 42, «值».«整数» 42] := by
  decide

/-- The jump scenario: `跳转 结, 推入 99, 标签 结, 停机`. -/
def «程序C3» : List «指令» :=
  [⟨"跳转", «值».«字符串» "结"⟩, ⟨"推入", «值».«整数» 99⟩, ⟨"标签", «值».«字符串» "结"⟩,
   ⟨"停机", «值».«无»⟩]

/-- C3 counterexample: the label 结 resolves to index 2, but after
executing the 跳转 the pc is 3 — the uniform +1 after dispatch IS applied
after a jump, contradicting the claim `pc = label_table[L]` exactly. -/
theorem «声称C3跳转反例» :
    «查找标签地址» «程序C3» («值».«字符串» "结") = some 2 ∧
    («执行单条指令» («加载程序» («初始虚拟机» 65536) «程序C3»)).«程序计数器» = 3 ∧
    («执行单条指令» («加载程序» («初始虚拟机» 65536) «程序C3»)).«程序计数器» ≠ 2 := by
  decide

/-- C3 (amended): after `跳转 L` with an existing label, pc equals the
label's index + 1 (the uniform post-dispatch increment applies; the
skipped instruction is the 标签 no-op, so the behaviour is observably
equivalent to landing on it); with a missing label the jump faults and
the run aborts (running false, fault flag set, pc unchanged). -/
theorem «声称C3跳转修正» (s : «虚拟机») (i : «指令»)
    (hflag : s.«异常标志» = false)
    (hf : s.«指令存储器»[s.«程序计数器»]? = some i)
    (hop : i.«操作码» = "跳转") :
    (∀ a, «查找标签地址» s.«指令存储器» i.«操作数» = some a →
       («执行单条指令» s).«程序计数器» = a + 1) ∧
    («查找标签地址» s.«指令存储器» i.«操作数» = none →
     s.«异常处理程序映射» = [] → s.«异常处理栈» = [] →
       («执行单条指令» s).«运行标志» = false ∧ («执行单条指令» s).«异常标志» = true ∧
       («执行单条指令» s).«程序计数器» = s.«程序计数器») := by
  constructor
  · intro a ha
    simp [«执行单条指令», hf, «_执行指令», hop, «执行跳转指令», ha, hflag]
  · intro hmiss hm hs
    have e : «执行单条指令» s = «触发异常» s "未找到标签" := by
      simp [«执行单条指令», hf, «_执行指令», hop, «执行跳转指令», hmiss,
            «触发异常保持异常标志», hm]
    rw [e, «触发异常特征» s _ hm hs]
    exact ⟨rfl, rfl, rfl⟩

/-- C3 witness: on 程序C3 the jump lands at 2 + 1. -/
theorem «声称C3跳转修正见证» :
    («执行单条指令» («加载程序» («初始虚拟机» 65536) «程序C3»)).«程序计数器» = 2 + 1 :=
  («声称C3跳转修正» («加载程序» («初始虚拟机» 65536) «程序C3») ⟨"跳转", «值».«字符串» "结"⟩
    rfl rfl rfl).1 2 (by decide)

/-- The call scenario for the debugger: `调用 f, 停机, 标签 f, 返回`. -/
def «程序C5» : List «指令» :=
  [⟨"调用", «值».«字符串» "f"⟩, ⟨"停机", «值».«无»⟩, ⟨"标签", «值».«字符串» "f"⟩, ⟨"返回", «值».«无»⟩]

/-- C5 (code bug): with the next instruction a 调用, the debugger command
next (步过) suspends immediately having executed zero instructions — pc
and the instruction count are unchanged — because _执行直到返回 checks
`调用栈深度 ≤ 目标深度` before executing anything and the target equals
the pre-step depth, so it holds at entry.  The claim's behaviour
(step across the 调用, executing at least one instruction, stopping at
the instruction after it) does not occur. -/
theorem «声称C5步过零指令» :
    «程序C5»[0]? = some ⟨"调用", «值».«字符串» "f"⟩ ∧
    («单步执行» («创建调试器» («加载程序» («初始虚拟机» 65536) «程序C5») (fun _ _ => false))
      "next" 100).1.«机».«程序计数器» = 0 ∧
    («单步执行» («创建调试器» («加载程序» («初始虚拟机» 65536) «程序C5») (fun _ _ => false))
      "next" 100).1.«机».«指令计数» = 0 ∧
    («单步执行» («创建调试器» («加载程序» («初始虚拟机» 65536) «程序C5») (fun _ _ => false))
      "next" 100).2 = true := by
  decide

/-- The spec's divide-by-zero scenario: `推入 10, 推入 0, 除法, 停机`. -/
def «程序C2» : List «指令» :=
  [⟨"推入", «值».«整数» 10⟩, ⟨"推入", «值».«整数» 0⟩, ⟨"除法", «值».«无»⟩, ⟨"停机", «值».«无»⟩]

/-- The 取模 variant of the divide-by-zero scenario. -/
def «程序C2取模» : List «指令» :=
  [⟨"推入", «值».«整数» 10⟩, ⟨"推入", «值».«整数» 0⟩, ⟨"取模", «值».«无»⟩,
   ⟨"停机", «值».«无»⟩]

/-- C2 counterexample: on `推入 10, 推入 0, 除法, 停机` the divide-by-zero
fault is recorded and the default 0 is pushed, but pc stays at 2 (it does
not advance by 1) and the run aborts — only 3 instructions execute, 停机
is never reached — contradicting "pc advances by exactly 1 and execution
continues".  For 取模 the zero case is worse: the in-lambda fault returns
None and that None (not 0) is pushed as the result. -/
theorem «声称C2除零中止反例» :
    («运行步数» («加载程序» («初始虚拟机» 65536) «程序C2») 10).«运行标志» = false ∧
    («运行步数» («加载程序» («初始虚拟机» 65536) «程序C2») 10).«程序计数器» = 2 ∧
    («运行步数» («加载程序» («初始虚拟机» 65536) «程序C2») 10).«操作数栈» = [«值».«整数» 0] ∧
    («运行步数» («加载程序» («初始虚拟机» 65536) «程序C2») 10).«指令计数» = 3 ∧
    («运行步数» («加载程序» («初始虚拟机» 65536) «程序C2») 10).«当前异常信息» = "除零错误" ∧
    («运行步数» («加载程序» («初始虚拟机» 65536) «程序C2取模») 10).«操作数栈» = [«值».«无»] ∧
    («运行步数» («加载程序» («初始虚拟机» 65536) «程序C2取模») 10).«运行标志» = false := by
  decide

/-- C2 (amended): 除法 with popped right operand equal to 0 records the
除零错误 fault (one error record appended) and, per the 返回默认值
recovery policy, pushes the default 0 — but with no handler registered
the fault is fatal: running becomes false, pc does not advance, and the
运行 loop is a fixpoint (execution does not continue). -/
theorem «声称C2除零修正» (s : «虚拟机») (i : «指令») (r l : «值») (rest : List «值»)
    (hf : s.«指令存储器»[s.«程序计数器»]? = some i)
    (hop : i.«操作码» = "除法")
    (hst : s.«操作数栈» = r :: l :: rest)
    (hz : «等于判定» r («值».«整数» 0) = true)
    (hm : s.«异常处理程序映射» = [])
    (hs : s.«异常处理栈» = []) :
    («执行单条指令» s).«操作数栈» = «值».«整数» 0 :: rest ∧
    («执行单条指令» s).«异常记录列表».length = s.«异常记录列表».length + 1 ∧
    («执行单条指令» s).«运行标志» = false ∧
    («执行单条指令» s).«异常标志» = true ∧
    («执行单条指令» s).«程序计数器» = s.«程序计数器» ∧
    ∀ n, «运行步数» («执行单条指令» s) n = «执行单条指令» s := by
  have e2 := «触发异常特征» { s with «操作数栈» := rest } "除零错误" hm hs
  have e1 : «执行单条指令» s =
      { «触发异常» { s with «操作数栈» := rest } "除零错误" with
          «操作数栈» := «值».«整数» 0 ::
            («触发异常» { s with «操作数栈» := rest } "除零错误").«操作数栈» } := by
    simp [«执行单条指令», hf, «_执行指令», hop, «执行除法指令», hst, hz, «获取恢复策略»,
          «触发异常保持异常标志», hm]
  rw [e1, e2]
  refine ⟨by simp, by simp, rfl, rfl, rfl, ?_⟩
  intro n
  exact «运行停止不动» _ n rfl

/-- C2 witness: 除法 on the stack `[0, 10]`. -/
theorem «声称C2除零修正见证» :
    («执行单条指令» { («加载程序» («初始虚拟机» 65536) [⟨"除法", «值».«无»⟩]) with
        «操作数栈» := [«值».«整数» 0, «值».«整数» 10] }).«操作数栈» = [«值».«整数» 0] ∧
    («执行单条指令» { («加载程序» («初始虚拟机» 65536) [⟨"除法", «值».«无»⟩]) with
        «操作数栈» := [«值».«整数» 0, «值».«整数» 10] }).«运行标志» = false := by
  have h := «声称C2除零修正» { («加载程序» («初始虚拟机» 65536) [⟨"除法", «值».«无»⟩]) with
      «操作数栈» := [«值».«整数» 0, «值».«整数» 10] }
    ⟨"除法", «值».«无»⟩ («值».«整数» 0) («值».«整数» 10) [] rfl rfl rfl (by decide) rfl rfl
  exact ⟨h.1, h.2.2.1⟩

/-- C4 counterexample: 加载程序 on a machine with a non-empty operand
stack, call stack and exception stack leaves all three untouched, and a
program with a duplicate label loads without any error (running true,
error log still empty) — no clearing and no label-uniqueness validation
happen at load time. -/
theorem «声称C4加载不清栈反例» :
    («加载程序» { «初始虚拟机» 65536 with
        «操作数栈» := [«值».«整数» 5],
        «调用栈» := [{ «返回地址» := 7, «栈帧指针» := 0, «局部变量» := [] }],
        «异常处理栈» := [{ «异常信息» := "旧", «程序计数器» := 0,
                         «操作数栈快照» := [], «调用栈深度» := 0 }] }
      [⟨"标签", «值».«字符串» "同"⟩, ⟨"标签", «值».«字符串» "同"⟩]).«操作数栈» = [«值».«整数» 5] ∧
    («加载程序» { «初始虚拟机» 65536 with
        «操作数栈» := [«值».«整数» 5],
        «调用栈» := [{ «返回地址» := 7, «栈帧指针» := 0, «局部变量» := [] }],
        «异常处理栈» := [{ «异常信息» := "旧", «程序计数器» := 0,
                         «操作数栈快照» := [], «调用栈深度» := 0 }] }
      [⟨"标签", «值».«字符串» "同"⟩, ⟨"标签", «值».«字符串» "同"⟩]).«调用栈» ≠ [] ∧
    («加载程序» { «初始虚拟机» 65536 with
        «操作数栈» := [«值».«整数» 5],
        «调用栈» := [{ «返回地址» := 7, «栈帧指针» := 0, «局部变量» := [] }],
        «异常处理栈» := [{ «异常信息» := "旧", «程序计数器» := 0,
                         «操作数栈快照» := [], «调用栈深度» := 0 }] }
      [⟨"标签", «值».«字符串» "同"⟩, ⟨"标签", «值».«字符串» "同"⟩]).«异常处理栈» ≠ [] ∧
    («加载程序» { «初始虚拟机» 65536 with
        «操作数栈» := [«值».«整数» 5],
        «调用栈» := [{ «返回地址» := 7, «栈帧指针» := 0, «局部变量» := [] }],
        «异常处理栈» := [{ «异常信息» := "旧", «程序计数器» := 0,
                         «操作数栈快照» := [], «调用栈深度» := 0 }] }
      [⟨"标签", «值».«字符串» "同"⟩, ⟨"标签", «值».«字符串» "同"⟩]).«运行标志» = true ∧
    («加载程序» { «初始虚拟机» 65536 with
        «操作数栈» := [«值».«整数» 5],
        «调用栈» := [{ «返回地址» := 7, «栈帧指针» := 0, «局部变量» := [] }],
        «异常处理栈» := [{ «异常信息» := "旧", «程序计数器» := 0,
                         «操作数栈快照» := [], «调用栈深度» := 0 }] }
      [⟨"标签", «值».«字符串» "同"⟩, ⟨"标签", «值».«字符串» "同"⟩]).«异常记录列表» = [] := by
  decide

/-- C4 (amended): for every machine and program, 加载程序 stores the
program and resets pc to 0, running to true, the fault flag, message and
instruction count — while the operand stack, call stack, exception
stack, error log, heap, frame pointer and high-water mark are left
unchanged (not cleared), and no label validation or label-table
construction is performed (labels are resolved by a linear scan of
查找标签地址 at jump time, taking the first occurrence). -/
theorem «声称C4加载修正» (s : «虚拟机») (p : List «指令») :
    («加载程序» s p).«指令存储器» = p ∧
    («加载程序» s p).«程序计数器» = 0 ∧
    («加载程序» s p).«运行标志» = true ∧
    («加载程序» s p).«异常标志» = false ∧
    («加载程序» s p).«当前异常信息» = "" ∧
    («加载程序» s p).«指令计数» = 0 ∧
    («加载程序» s p).«操作数栈» = s.«操作数栈» ∧
    («加载程序» s p).«调用栈» = s.«调用栈» ∧
    («加载程序» s p).«异常处理栈» = s.«异常处理栈» ∧
    («加载程序» s p).«异常记录列表» = s.«异常记录列表» ∧
    («加载程序» s p).«堆内存» = s.«堆内存» ∧
    («加载程序» s p).«栈帧指针» = s.«栈帧指针» ∧
    («加载程序» s p).«栈最大深度» = s.«栈最大深度» :=
  ⟨rfl, rfl, rfl, rfl, rfl, rfl, rfl, rfl, rfl, rfl, rfl, rfl, rfl⟩

/-- The operand stack after a tick is the operand stack the dispatched
handler produced (the pc bump never touches it). -/
theorem «执行单条指令栈» (s : «虚拟机») (i : «指令»)
    (hf : s.«指令存储器»[s.«程序计数器»]? = some i) :
    («执行单条指令» s).«操作数栈» = («_执行指令» s i).«操作数栈» := by
  simp only [«执行单条指令», hf]
  split <;> rfl

/-- The fault flag after a tick is the fault flag the dispatched handler
produced. -/
theorem «执行单条指令异常» (s : «虚拟机») (i : «指令»)
    (hf : s.«指令存储器»[s.«程序计数器»]? = some i) :
    («执行单条指令» s).«异常标志» = («_执行指令» s i).«异常标志» := by
  simp only [«执行单条指令», hf]
  split <;> rfl

/-- The heap after a tick is the heap the dispatched handler produced. -/
theorem «执行单条指令堆» (s : «虚拟机») (i : «指令»)
    (hf : s.«指令存储器»[s.«程序计数器»]? = some i) :
    («执行单条指令» s).«堆内存» = («_执行指令» s i).«堆内存» := by
  simp only [«执行单条指令», hf]
  split <;> rfl

/-- A non-faulting 执行二元算术指令 on `右 :: 左 :: 剩余` applied its
operand function to (左, 右) — the freshly popped 右 as the right
argument — and pushed the single result onto 剩余. -/
theorem «二元算术分析» (s : «虚拟机») (op : «值» → «值» → Option «值») (nm : String)
    (r l : «值») (rest : List «值»)
    (hst : s.«操作数栈» = r :: l :: rest)
    (hm : s.«异常处理程序映射» = [])
    (hok : («执行二元算术指令» s op nm).«异常标志» = false) :
    ∃ res, op l r = some res ∧
      («执行二元算术指令» s op nm).«操作数栈» = res :: rest := by
  cases hval : op l r with
  | some res =>
    exact ⟨res, rfl, by simp [«执行二元算术指令», hst, hval]⟩
  | none =>
    exfalso
    have e : («执行二元算术指令» s op nm).«异常标志» = true := by
      simp [«执行二元算术指令», hst, hval, «触发异常保持异常标志», hm]
    rw [e] at hok
    exact Bool.noConfusion hok

/-- A non-faulting 执行比较指令 on `右 :: 左 :: 剩余` pushed the integer
1 or 0 computed from 比较 左 右 onto 剩余. -/
theorem «比较分析» (s : «虚拟机») (cmp : «值» → «值» → Option Bool)
    (r l : «值») (rest : List «值»)
    (hst : s.«操作数栈» = r :: l :: rest)
    (hm : s.«异常处理程序映射» = [])
    (hok : («执行比较指令» s cmp).«异常标志» = false) :
    ∃ b, cmp l r = some b ∧
      («执行比较指令» s cmp).«操作数栈» = (if b then «值».«整数» 1 else «值».«整数» 0) :: rest := by
  cases hval : cmp l r with
  | some b =>
    exact ⟨b, rfl, by simp [«执行比较指令», hst, hval]⟩
  | none =>
    exfalso
    have e : («执行比较指令» s cmp).«异常标志» = true := by
      simp [«执行比较指令», hst, hval, «触发异常保持异常标志», hm]
    rw [e] at hok
    exact Bool.noConfusion hok

/-- A non-faulting 执行除法指令 on `右 :: 左 :: 剩余` pushed the single
float quotient of (左, 右) onto 剩余 (the divide-by-zero branch always
leaves the fault flag set, so it is excluded here). -/
theorem «除法分析» (s : «虚拟机») (r l : «值») (rest : List «值»)
    (hst : s.«操作数栈» = r :: l :: rest)
    (hm : s.«异常处理程序映射» = [])
    (hok : («执行除法指令» s).«异常标志» = false) :
    ∃ res, «除法运算» l r = some res ∧
      («执行除法指令» s).«操作数栈» = res :: rest := by
  by_cases hz : «等于判定» r («值».«整数» 0) = true
  · exfalso
    have e : («执行除法指令» s).«异常标志» = true := by
      simp [«执行除法指令», hst, hz, «获取恢复策略», «触发异常保持异常标志», hm]
    rw [e] at hok
    exact Bool.noConfusion hok
  · cases hval : «除法运算» l r with
    | some res =>
      exact ⟨res, rfl, by simp [«执行除法指令», hst, hz, hval]⟩
    | none =>
      exfalso
      have e : («执行除法指令» s).«异常标志» = true := by
        simp [«执行除法指令», hst, hz, hval, «触发异常保持异常标志», hm]
      rw [e] at hok
      exact Bool.noConfusion hok

/-- A non-faulting 执行取模指令 on `右 :: 左 :: 剩余` pushed the single
remainder of (左, 右) onto 剩余 (the zero branch, which pushes None and
faults, is excluded here). -/
theorem «取模分析» (s : «虚拟机») (r l : «值») (rest : List «值»)
    (hst : s.«操作数栈» = r :: l :: rest)
    (hm : s.«异常处理程序映射» = [])
    (hok : («执行取模指令» s).«异常标志» = false) :
    ∃ res, «取模运算» l r = some res ∧
      («执行取模指令» s).«操作数栈» = res :: rest := by
  by_cases hz : «等于判定» r («值».«整数» 0) = true
  · exfalso
    have e : («执行取模指令» s).«异常标志» = true := by
      simp [«执行取模指令», hst, hz, «触发异常保持异常标志», hm]
    rw [e] at hok
    exact Bool.noConfusion hok
  · cases hval : «取模运算» l r with
    | some res =>
      exact ⟨res, rfl, by simp [«执行取模指令», hst, hz, hval]⟩
    | none =>
      exfalso
      have e : («执行取模指令» s).«异常标志» = true := by
        simp [«执行取模指令», hst, hz, hval, «触发异常保持异常标志», hm]
      rw [e] at hok
      exact Bool.noConfusion hok

/-- C7: every binary arithmetic or comparison instruction executed on an
operand stack of depth ≥ 2 that completes without fault pops the right
operand first and then the left (the operand function receives the
deeper element as its left argument — witnessed exactly for 减法),
pushes exactly one result onto the remaining stack (net change −1), and
every comparison pushes the integer 1 or 0 (整数, never 布尔). -/
theorem «声称C7二元指令栈规律» (s : «虚拟机») (i : «指令») (r l : «值») (rest : List «值»)
    (hf : s.«指令存储器»[s.«程序计数器»]? = some i)
    (hops : i.«操作码» ∈ ["加法", "减法", "乘法", "除法", "取模", "等于", "不等于",
                        "大于", "小于", "大于等于", "小于等于"])
    (hst : s.«操作数栈» = r :: l :: rest)
    (hm : s.«异常处理程序映射» = [])
    (hok : («执行单条指令» s).«异常标志» = false) :
    ∃ res, («执行单条指令» s).«操作数栈» = res :: rest ∧
      (i.«操作码» ∈ ["等于", "不等于", "大于", "小于", "大于等于", "小于等于"] →
        res = «值».«整数» 1 ∨ res = «值».«整数» 0) ∧
      (i.«操作码» = "减法" → «减法运算» l r = some res) := by
  simp only [List.mem_cons, List.not_mem_nil, or_false] at hops
  rcases hops with h|h|h|h|h|h|h|h|h|h|h
  · have hd : «_执行指令» s i = «执行二元算术指令» s «加法运算» "加法" := by
      simp [«_执行指令», h]
    have hok2 : («执行二元算术指令» s «加法运算» "加法").«异常标志» = false := by
      rw [«执行单条指令异常» s i hf, hd] at hok; exact hok
    obtain ⟨res, hval, hstack⟩ := «二元算术分析» s «加法运算» "加法" r l rest hst hm hok2
    refine ⟨res, ?_, ?_, ?_⟩
    · rw [«执行单条指令栈» s i hf, hd, hstack]
    · intro hmem; rw [h] at hmem; simp at hmem
    · intro hsub; rw [h] at hsub; exact absurd hsub (by decide)
  · have hd : «_执行指令» s i = «执行二元算术指令» s «减法运算» "减法" := by
      simp [«_执行指令», h]
    have hok2 : («执行二元算术指令» s «减法运算» "减法").«异常标志» = false := by
      rw [«执行单条指令异常» s i hf, hd] at hok; exact hok
    obtain ⟨res, hval, hstack⟩ := «二元算术分析» s «减法运算» "减法" r l rest hst hm hok2
    refine ⟨res, ?_, ?_, fun _ => hval⟩
    · rw [«执行单条指令栈» s i hf, hd, hstack]
    · intro hmem; rw [h] at hmem; simp at hmem
  · have hd : «_执行指令» s i = «执行二元算术指令» s «乘法运算» "乘法" := by
      simp [«_执行指令», h]
    have hok2 : («执行二元算术指令» s «乘法运算» "乘法").«异常标志» = false := by
      rw [«执行单条指令异常» s i hf, hd] at hok; exact hok
    obtain ⟨res, hval, hstack⟩ := «二元算术分析» s «乘法运算» "乘法" r l rest hst hm hok2
    refine ⟨res, ?_, ?_, ?_⟩
    · rw [«执行单条指令栈» s i hf, hd, hstack]
    · intro hmem; rw [h] at hmem; simp at hmem
    · intro hsub; rw [h] at hsub; exact absurd hsub (by decide)
  · have hd : «_执行指令» s i = «执行除法指令» s := by
      simp [«_执行指令», h]
    have hok2 : («执行除法指令» s).«异常标志» = false := by
      rw [«执行单条指令异常» s i hf, hd] at hok; exact hok
    obtain ⟨res, hval, hstack⟩ := «除法分析» s r l rest hst hm hok2
    refine ⟨res, ?_, ?_, ?_⟩
    · rw [«执行单条指令栈» s i hf, hd, hstack]
    · intro hmem; rw [h] at hmem; simp at hmem
    · intro hsub; rw [h] at hsub; exact absurd hsub (by decide)
  · have hd : «_执行指令» s i = «执行取模指令» s := by
      simp [«_执行指令», h]
    have hok2 : («执行取模指令» s).«异常标志» = false := by
      rw [«执行单条指令异常» s i hf, hd] at hok; exact hok
    obtain ⟨res, hval, hstack⟩ := «取模分析» s r l rest hst hm hok2
    refine ⟨res, ?_, ?_, ?_⟩
    · rw [«执行单条指令栈» s i hf, hd, hstack]
    · intro hmem; rw [h] at hmem; simp at hmem
    · intro hsub; rw [h] at hsub; exact absurd hsub (by decide)
  · have hd : «_执行指令» s i = «执行比较指令» s (fun a b => some («等于判定» a b)) := by
      simp [«_执行指令», h]
    have hok2 : («执行比较指令» s (fun a b => some («等于判定» a b))).«异常标志» = false := by
      rw [«执行单条指令异常» s i hf, hd] at hok; exact hok
    obtain ⟨b, hval, hstack⟩ := «比较分析» s _ r l rest hst hm hok2
    refine ⟨if b then «值».«整数» 1 else «值».«整数» 0, ?_, ?_, ?_⟩
    · rw [«执行单条指令栈» s i hf, hd, hstack]
    · intro _; cases b <;> simp
    · intro hsub; rw [h] at hsub; exact absurd hsub (by decide)
  · have hd : «_执行指令» s i = «执行比较指令» s (fun a b => some (!«等于判定» a b)) := by
      simp [«_执行指令», h]
    have hok2 : («执行比较指令» s (fun a b => some (!«等于判定» a b))).«异常标志» = false := by
      rw [«执行单条指令异常» s i hf, hd] at hok; exact hok
    obtain ⟨b, hval, hstack⟩ := «比较分析» s _ r l rest hst hm hok2
    refine ⟨if b then «值».«整数» 1 else «值».«整数» 0, ?_, ?_, ?_⟩
    · rw [«执行单条指令栈» s i hf, hd, hstack]
    · intro _; cases b <;> simp
    · intro hsub; rw [h] at hsub; exact absurd hsub (by decide)
  · have hd : «_执行指令» s i = «执行比较指令» s (fun a b => «小于判定» b a) := by
      simp [«_执行指令», h]
    have hok2 : («执行比较指令» s (fun a b => «小于判定» b a)).«异常标志» = false := by
      rw [«执行单条指令异常» s i hf, hd] at hok; exact hok
    obtain ⟨b, hval, hstack⟩ := «比较分析» s _ r l rest hst hm hok2
    refine ⟨if b then «值».«整数» 1 else «值».«整数» 0, ?_, ?_, ?_⟩
    · rw [«执行单条指令栈» s i hf, hd, hstack]
    · intro _; cases b <;> simp
    · intro hsub; rw [h] at hsub; exact absurd hsub (by decide)
  · have hd : «_执行指令» s i = «执行比较指令» s (fun a b => «小于判定» a b) := by
      simp [«_执行指令», h]
    have hok2 : («执行比较指令» s (fun a b => «小于判定» a b)).«异常标志» = false := by
      rw [«执行单条指令异常» s i hf, hd] at hok; exact hok
    obtain ⟨b, hval, hstack⟩ := «比较分析» s _ r l rest hst hm hok2
    refine ⟨if b then «值».«整数» 1 else «值».«整数» 0, ?_, ?_, ?_⟩
    · rw [«执行单条指令栈» s i hf, hd, hstack]
    · intro _; cases b <;> simp
    · intro hsub; rw [h] at hsub; exact absurd hsub (by decide)
  · have hd : «_执行指令» s i = «执行比较指令» s (fun a b => («小于判定» a b).map (fun x => !x)) := by
      simp [«_执行指令», h]
    have hok2 : («执行比较指令» s (fun a b => («小于判定» a b).map (fun x => !x))).«异常标志» = false := by
      rw [«执行单条指令异常» s i hf, hd] at hok; exact hok
    obtain ⟨b, hval, hstack⟩ := «比较分析» s _ r l rest hst hm hok2
    refine ⟨if b then «值».«整数» 1 else «值».«整数» 0, ?_, ?_, ?_⟩
    · rw [«执行单条指令栈» s i hf, hd, hstack]
    · intro _; cases b <;> simp
    · intro hsub; rw [h] at hsub; exact absurd hsub (by decide)
  · have hd : «_执行指令» s i = «执行比较指令» s (fun a b => («小于判定» b a).map (fun x => !x)) := by
      simp [«_执行指令», h]
    have hok2 : («执行比较指令» s (fun a b => («小于判定» b a).map (fun x => !x))).«异常标志» = false := by
      rw [«执行单条指令异常» s i hf, hd] at hok; exact hok
    obtain ⟨b, hval, hstack⟩ := «比较分析» s _ r l rest hst hm hok2
    refine ⟨if b then «值».«整数» 1 else «值».«整数» 0, ?_, ?_, ?_⟩
    · rw [«执行单条指令栈» s i hf, hd, hstack]
    · intro _; cases b <;> simp
    · intro hsub; rw [h] at hsub; exact absurd hsub (by decide)

/-- C7 witness: 减法 on the stack `[2, 5]` (right operand 2 on top)
yields 5 − 2 = 3, demonstrating pop order and net stack change. -/
theorem «声称C7二元指令栈规律见证» :
    («执行单条指令» { («加载程序» («初始虚拟机» 65536) [⟨"减法", «值».«无»⟩]) with
        «操作数栈» := [«值».«整数» 2, «值».«整数» 5] }).«操作数栈» = [«值».«整数» 3] := by
  obtain ⟨res, hstack, hcmp, hsub⟩ :=
    «声称C7二元指令栈规律»
      { («加载程序» («初始虚拟机» 65536) [⟨"减法", «值».«无»⟩]) with
          «操作数栈» := [«值».«整数» 2, «值».«整数» 5] }
      ⟨"减法", «值».«无»⟩ («值».«整数» 2) («值».«整数» 5) [] rfl (by decide) rfl rfl (by decide)
  have h3 := hsub rfl
  rw [show «减法运算» («值».«整数» 5) («值».«整数» 2) = some («值».«整数» 3) by decide] at h3
  injection h3 with h4
  rw [← h4] at hstack
  exact hstack

/-- The 4-byte little-endian signed codec round-trips on every integer
in the signed 32-bit range. -/
theorem «编码解码往返» (v : Int) (h1 : -(2 ^ 31) ≤ v) (h2 : v < 2 ^ 31) :
    «解码四字节» («编码字节» v 0) («编码字节» v 1) («编码字节» v 2) («编码字节» v 3) = v := by
  norm_num at h1 h2
  have hA : ∀ i : Nat, «编码字节» v i = (v % 4294967296).toNat / 2 ^ (8 * i) % 256 :=
    fun i => rfl
  have e0 : «编码字节» v 0 = (v % 4294967296).toNat % 256 := by rw [hA]; norm_num
  have e1 : «编码字节» v 1 = (v % 4294967296).toNat / 256 % 256 := by rw [hA]; norm_num
  have e2 : «编码字节» v 2 = (v % 4294967296).toNat / 65536 % 256 := by rw [hA]; norm_num
  have e3 : «编码字节» v 3 = (v % 4294967296).toNat / 16777216 % 256 := by rw [hA]; norm_num
  rw [e0, e1, e2, e3]
  simp only [«解码四字节»]
  have hs : (v % 4294967296).toNat % 256 +
      2 ^ 8 * ((v % 4294967296).toNat / 256 % 256) +
      2 ^ 16 * ((v % 4294967296).toNat / 65536 % 256) +
      2 ^ 24 * ((v % 4294967296).toNat / 16777216 % 256) = (v % 4294967296).toNat := by
    norm_num
    omega
  rw [hs]
  split_ifs with hlt
  · norm_num at hlt
    omega
  · norm_num at hlt
    omega

/-- The four cell bytes written by 写四字节 are the encoding bytes. -/
theorem «写四字节读取» («堆» : Nat → Nat) (a : Nat) (v : Int) (k : Nat) (hk : k < 4) :
    «写四字节» «堆» a v (a + k) = «编码字节» v k := by
  unfold «写四字节»
  rw [if_pos (by omega)]
  congr 1
  omega

/-- The overflow scenario: `推入 2^31, 存储 0, 加载 0, 停机`. -/
def «程序C8» : List «指令» :=
  [⟨"推入", «值».«整数» 2147483648⟩, ⟨"存储", «值».«整数» 0⟩, ⟨"加载", «值».«整数» 0⟩,
   ⟨"停机", «值».«无»⟩]

/-- C8 counterexample: for the value v = 2^31 (outside the signed 4-byte
range) the round-trip fails — `to_bytes` raises OverflowError, the 存储
faults and the run aborts with an empty operand stack, so the following
加载 never pushes v. -/
theorem «声称C8存取往返反例» :
    («运行步数» («加载程序» («初始虚拟机» 65536) «程序C8») 10).«操作数栈» = [] ∧
    («运行步数» («加载程序» («初始虚拟机» 65536) «程序C8») 10).«运行标志» = false ∧
    («运行步数» («加载程序» («初始虚拟机» 65536) «程序C8») 10).«当前异常信息» =
      "指令执行异常: 整数超出4字节范围" := by
  decide

/-- C8 (amended): for every integer v in the signed 4-byte range
−2^31 ≤ v < 2^31 and in-range address a, 存储 a writes the 4-byte
little-endian cell without fault, and any later 加载 a on a machine
whose heap agrees on `[a, a+4)` with the stored heap pushes exactly
值.整数 v (the little-endian signed round-trip). -/
theorem «声称C8存取往返修正» (s : «虚拟机») (i : «指令») (v : Int) (rest : List «值») (a : Nat)
    (hf : s.«指令存储器»[s.«程序计数器»]? = some i)
    (hop : i.«操作码» = "存储")
    (hoa : i.«操作数» = «值».«整数» (a : Int))
    (hst : s.«操作数栈» = «值».«整数» v :: rest)
    (hr : a + 4 ≤ s.«内存大小»)
    (hv1 : -(2 ^ 31) ≤ v) (hv2 : v < 2 ^ 31) :
    («执行单条指令» s).«堆内存» = «写四字节» s.«堆内存» a v ∧
    («执行单条指令» s).«操作数栈» = rest ∧
    («执行单条指令» s).«异常标志» = s.«异常标志» ∧
    (∀ (s2 : «虚拟机») (j : «指令»),
      s2.«指令存储器»[s2.«程序计数器»]? = some j →
      j.«操作码» = "加载" →
      j.«操作数» = «值».«整数» (a : Int) →
      a + 4 ≤ s2.«内存大小» →
      (∀ k, a ≤ k → k < a + 4 → s2.«堆内存» k = «写四字节» s.«堆内存» a v k) →
      («执行单条指令» s2).«操作数栈» = «值».«整数» v :: s2.«操作数栈») := by
  have hc1 : (0 : Int) ≤ (a : Int) := Int.natCast_nonneg a
  have hv1n : (-2147483648 : Int) ≤ v := by
    rw [show (-2147483648 : Int) = -(2 ^ 31) by norm_num]
    exact hv1
  have hv2n : v < (2147483648 : Int) := by
    rw [show (2147483648 : Int) = 2 ^ 31 by norm_num]
    exact hv2
  have hc2 : (a : Int) < (s.«内存大小» : Int) := by exact_mod_cast by omega
  have hc3 : (a : Int) + 4 ≤ (s.«内存大小» : Int) := by exact_mod_cast hr
  have hd : «_执行指令» s i =
      { s with «操作数栈» := rest, «堆内存» := «写四字节» s.«堆内存» a v } := by
    simp [«_执行指令», hop, «执行存储指令», hst, hoa, «整数值», «转整数»,
          hc1, hc2, hc3, hv1, hv2, hv1n, hv2n]
  refine ⟨?_, ?_, ?_, ?_⟩
  · rw [«执行单条指令堆» s i hf, hd]
  · rw [«执行单条指令栈» s i hf, hd]
  · rw [«执行单条指令异常» s i hf, hd]
  · intro s2 j hf2 hop2 hoa2 hr2 hag
    have b0 : «写四字节» s.«堆内存» a v a = «编码字节» v 0 := by
      have e := «写四字节读取» s.«堆内存» a v 0 (by norm_num)
      simpa using e
    have b1 : «写四字节» s.«堆内存» a v (a + 1) = «编码字节» v 1 :=
      «写四字节读取» s.«堆内存» a v 1 (by norm_num)
    have b2 : «写四字节» s.«堆内存» a v (a + 2) = «编码字节» v 2 :=
      «写四字节读取» s.«堆内存» a v 2 (by norm_num)
    have b3 : «写四字节» s.«堆内存» a v (a + 3) = «编码字节» v 3 :=
      «写四字节读取» s.«堆内存» a v 3 (by norm_num)
    have hbytes : «读四字节» s2.«堆内存» a = v := by
      unfold «读四字节»
      rw [hag a (Nat.le_refl a) (by omega), hag (a + 1) (by omega) (by omega),
          hag (a + 2) (by omega) (by omega), hag (a + 3) (by omega) (by omega),
          b0, b1, b2, b3]
      exact «编码解码往返» v hv1 hv2
    have hc2' : (a : Int) < (s2.«内存大小» : Int) := by exact_mod_cast by omega
    have hc3' : (a : Int) + 4 ≤ (s2.«内存大小» : Int) := by exact_mod_cast hr2
    have hd2 : «_执行指令» s2 j =
        { s2 with «操作数栈» := «值».«整数» («读四字节» s2.«堆内存» a) :: s2.«操作数栈» } := by
      simp [«_执行指令», hop2, «执行加载指令», hoa2, «整数值», hc1, hc2', hc3']
    rw [«执行单条指令栈» s2 j hf2, hd2, hbytes]

/-- C8 witness: store 7 at address 100, then load it back from the
written heap. -/
theorem «声称C8存取往返修正见证» :
    («执行单条指令» { («加载程序» («初始虚拟机» 65536) [⟨"存储", «值».«整数» 100⟩]) with
        «操作数栈» := [«值».«整数» 7] }).«堆内存» =
      «写四字节» («初始虚拟机» 65536).«堆内存» 100 7 ∧
    («执行单条指令» { («加载程序» («初始虚拟机» 65536) [⟨"加载", «值».«整数» 100⟩]) with
        «堆内存» := «写四字节» («初始虚拟机» 65536).«堆内存» 100 7 }).«操作数栈» =
      [«值».«整数» 7] := by
  have h := «声称C8存取往返修正»
    { («加载程序» («初始虚拟机» 65536) [⟨"存储", «值».«整数» 100⟩]) with «操作数栈» := [«值».«整数» 7] }
    ⟨"存储", «值».«整数» 100⟩ 7 [] 100 rfl rfl rfl rfl (by decide) (by decide) (by decide)
  refine ⟨h.1, ?_⟩
  exact h.2.2.2
    { («加载程序» («初始虚拟机» 65536) [⟨"加载", «值».«整数» 100⟩]) with
        «堆内存» := «写四字节» («初始虚拟机» 65536).«堆内存» 100 7 }
    ⟨"加载", «值».«整数» 100⟩ rfl rfl rfl (by decide) (fun k _ _ => rfl)
